import Mathlib

/-!
Verification of the `@keyauthjs/client` package core: the token-bucket
rate limiter (`src/utils/helpers.ts`, class `RateLimiter`) and the request
dispatch / error-classification pipeline (`src/utils/embedBuilder.ts`,
class `Api`, method `_makeRequest`), as a shallow embedding.

Modelling conventions:
* JavaScript numbers are modelled as exact rationals (`ℚ`); all arithmetic
  appearing in the embedded code (`+`, `-`, `Math.min`, `Math.max`,
  `Math.floor`, division) is exact on the values involved.
* `Date.now()` is passed in explicitly as a `now : ℚ` parameter; the several
  `Date.now()` calls occurring inside one synchronous operation are modelled
  as the same instant.
* A JavaScript `undefined` return value is modelled as `Option.none`;
  JavaScript objects with possibly-absent fields are records of `Option`s.
* A thrown JavaScript exception in a constructor is modelled by an
  `Option`-returning construction function (`none` = throw).
-/

namespace KeyauthClient

/-! ## Token-bucket rate limiter (src/utils/helpers.ts, class RateLimiter) -/

/-- State of `RateLimiter`: fields `tokens`, `lastRefillTime`, `refillRate`,
`maxTokens`, all JavaScript numbers. -/
structure RateLimiter where
  tokens : ℚ
  lastRefillTime : ℚ
  refillRate : ℚ
  maxTokens : ℚ
deriving DecidableEq, Repr

/-- The `RateLimiter` constructor: throws (`none`) when
`refillRate <= 0 || maxTokens <= 0`, otherwise starts with a full bucket and
`lastRefillTime = Date.now()`. -/
def mkRateLimiter (maxTokens refillRate now : ℚ) : Option RateLimiter :=
  if refillRate ≤ 0 ∨ maxTokens ≤ 0 then none
  else some { tokens := maxTokens, lastRefillTime := now,
              refillRate := refillRate, maxTokens := maxTokens }

/-- `RateLimiter.refill`:
`tokensToAdd = Math.floor(elapsedTime / refillRate)`;
`tokens = Math.min(tokens + tokensToAdd, maxTokens)`;
`lastRefillTime = now` (always advanced, even when `tokensToAdd` is 0). -/
def refill (s : RateLimiter) (now : ℚ) : RateLimiter :=
  let elapsedTime := now - s.lastRefillTime
  let tokensToAdd : ℤ := ⌊elapsedTime / s.refillRate⌋
  { s with tokens := min (s.tokens + (tokensToAdd : ℚ)) s.maxTokens,
           lastRefillTime := now }

/-- `RateLimiter.hasHitRateLimit`: refills, then if `tokens > 0` decrements
and returns `false` (not rate limited, i.e. admitted), else returns `true`
(rate limited, i.e. rejected). Also returns the updated state. -/
def hasHitRateLimit (s : RateLimiter) (now : ℚ) : Bool × RateLimiter :=
  let s1 := refill s now
  if 0 < s1.tokens then (false, { s1 with tokens := s1.tokens - 1 })
  else (true, s1)

/-- `RateLimiter.getTimeUntilCanMakeRequest`: refills, returns 0 when a token
is available, otherwise `Math.max(0, refillRate - elapsedTime)` where
`elapsedTime = now - lastRefillTime` is measured after the refill (which has
just set `lastRefillTime` to `now`). Also returns the updated state. -/
def getTimeUntilCanMakeRequest (s : RateLimiter) (now : ℚ) : ℚ × RateLimiter :=
  let s1 := refill s now
  if 0 < s1.tokens then (0, s1)
  else
    let elapsedTime := now - s1.lastRefillTime
    (max 0 (s1.refillRate - elapsedTime), s1)

/-- `RateLimiter.waitUntilCanMakeRequest`: computes the wait, sleeps for it,
then resets `tokens` to `maxTokens`. Returns the updated state and the
wall-clock instant at which the caller resumes. -/
def waitUntilCanMakeRequest (s : RateLimiter) (now : ℚ) : RateLimiter × ℚ :=
  let r := getTimeUntilCanMakeRequest s now
  ({ r.2 with tokens := r.2.maxTokens }, now + r.1)

/-- Integer floor division mirroring JavaScript `Math.floor(a / b)` on the
already-integer `seconds` and `minutes` values of
`getTimeUntilCanMakeRequestString`. -/
def jsFloorDiv (a b : ℤ) : ℤ := ⌊(a : ℚ) / (b : ℚ)⌋

/-- `RateLimiter.getTimeUntilCanMakeRequestString`: human-readable rendering
of `getTimeUntilCanMakeRequest` ("Now", milliseconds, seconds, minutes or
hours). Returns the string and the updated state (the underlying call
refills). -/
def getTimeUntilCanMakeRequestString (s : RateLimiter) (now : ℚ) : String × RateLimiter :=
  let r := getTimeUntilCanMakeRequest s now
  let t := r.1
  if t = 0 then ("Now", r.2)
  else if t < 1000 then (toString t.num ++ " milliseconds", r.2)
  else
    let seconds : ℤ := ⌊t / 1000⌋
    if seconds < 60 then
      (toString seconds ++ " second" ++ (if seconds ≠ 1 then "s" else ""), r.2)
    else
      let minutes : ℤ := jsFloorDiv seconds 60
      if minutes < 60 then
        (toString minutes ++ " minute" ++ (if minutes ≠ 1 then "s" else ""), r.2)
      else
        let hours : ℤ := jsFloorDiv minutes 60
        (toString hours ++ " hour" ++ (if hours ≠ 1 then "s" else ""), r.2)

/-! ### Operation sequences over the limiter (for the invariant claim) -/

/-- The three public limiter operations. -/
inductive RLOp
  | hasHit     -- hasHitRateLimit
  | timeUntil  -- getTimeUntilCanMakeRequest
  | wait       -- waitUntilCanMakeRequest
deriving DecidableEq, Repr

/-- Apply one public operation at wall-clock time `t`. -/
def applyOp (s : RateLimiter) (op : RLOp) (t : ℚ) : RateLimiter :=
  match op with
  | RLOp.hasHit => (hasHitRateLimit s t).2
  | RLOp.timeUntil => (getTimeUntilCanMakeRequest s t).2
  | RLOp.wait => (waitUntilCanMakeRequest s t).1

/-- Run a timed sequence of public operations. -/
def runOps (s : RateLimiter) : List (RLOp × ℚ) → RateLimiter
  | [] => s
  | (op, t) :: rest => runOps (applyOp s op t) rest

/-- Wall-clock times are non-decreasing and start no earlier than `t0`. -/
def timesMono (t0 : ℚ) : List (RLOp × ℚ) → Prop
  | [] => True
  | (_, t) :: rest => t0 ≤ t ∧ timesMono t rest

/-! ### Helper lemmas about the limiter -/

theorem refill_lastRefillTime (s : RateLimiter) (now : ℚ) :
    (refill s now).lastRefillTime = now := rfl

theorem refill_maxTokens (s : RateLimiter) (now : ℚ) :
    (refill s now).maxTokens = s.maxTokens := rfl

theorem refill_refillRate (s : RateLimiter) (now : ℚ) :
    (refill s now).refillRate = s.refillRate := rfl

theorem refill_tokens_le (s : RateLimiter) (now : ℚ) :
    (refill s now).tokens ≤ s.maxTokens := by
  simp only [refill]
  exact min_le_right _ _

theorem refill_tokens_nonneg (s : RateLimiter) (now : ℚ)
    (htok : 0 ≤ s.tokens) (hmax : 0 ≤ s.maxTokens)
    (hrate : 0 < s.refillRate) (hmono : s.lastRefillTime ≤ now) :
    0 ≤ (refill s now).tokens := by
  simp only [refill]
  have hadd : (0 : ℤ) ≤ ⌊(now - s.lastRefillTime) / s.refillRate⌋ := by
    apply Int.floor_nonneg.mpr
    exact div_nonneg (by linarith) (le_of_lt hrate)
  have : (0 : ℚ) ≤ (⌊(now - s.lastRefillTime) / s.refillRate⌋ : ℚ) := by
    exact_mod_cast hadd
  exact le_min (by linarith) hmax

theorem getTimeUntil_state (s : RateLimiter) (now : ℚ) :
    (getTimeUntilCanMakeRequest s now).2 = refill s now := by
  simp only [getTimeUntilCanMakeRequest]
  split <;> rfl

theorem hasHitRateLimit_lastRefillTime (s : RateLimiter) (now : ℚ) :
    (hasHitRateLimit s now).2.lastRefillTime = now := by
  simp only [hasHitRateLimit]
  split <;> rfl

theorem hasHitRateLimit_maxTokens (s : RateLimiter) (now : ℚ) :
    (hasHitRateLimit s now).2.maxTokens = s.maxTokens := by
  simp only [hasHitRateLimit]
  split <;> rfl

theorem hasHitRateLimit_refillRate (s : RateLimiter) (now : ℚ) :
    (hasHitRateLimit s now).2.refillRate = s.refillRate := by
  simp only [hasHitRateLimit]
  split <;> rfl

/-- Well-formedness of a limiter state produced by the constructor with an
integer capacity: tokens within bounds, `tokens` and `maxTokens` integral,
positive refill rate. -/
def GoodState (s : RateLimiter) : Prop :=
  0 ≤ s.tokens ∧ s.tokens ≤ s.maxTokens ∧
  (∃ k : ℤ, s.tokens = (k : ℚ)) ∧ (∃ m : ℤ, s.maxTokens = (m : ℚ)) ∧
  0 < s.refillRate

theorem refill_good (s : RateLimiter) (now : ℚ)
    (hg : GoodState s) (hmono : s.lastRefillTime ≤ now) :
    GoodState (refill s now) := by
  obtain ⟨h0, h1, ⟨k, hk⟩, ⟨m, hm⟩, h2⟩ := hg
  refine ⟨refill_tokens_nonneg s now h0 (le_trans h0 h1) h2 hmono, ?_, ?_, ?_, ?_⟩
  · rw [refill_maxTokens]; exact refill_tokens_le s now
  · refine ⟨min (k + ⌊(now - s.lastRefillTime) / s.refillRate⌋) m, ?_⟩
    simp only [refill, hk, hm]
    push_cast
    rfl
  · exact ⟨m, by rw [refill_maxTokens]; exact hm⟩
  · rw [refill_refillRate]; exact h2

theorem hasHitRateLimit_good (s : RateLimiter) (now : ℚ)
    (hg : GoodState s) (hmono : s.lastRefillTime ≤ now) :
    GoodState (hasHitRateLimit s now).2 := by
  have hr := refill_good s now hg hmono
  obtain ⟨h0, h1, ⟨k, hk⟩, ⟨m, hm⟩, h2⟩ := hr
  simp only [hasHitRateLimit]
  split
  · rename_i hpos
    have hk1 : (1 : ℤ) ≤ k := by
      have : (0 : ℚ) < (k : ℚ) := by rw [← hk]; exact hpos
      exact_mod_cast this
    refine ⟨?_, ?_, ⟨k - 1, ?_⟩, ⟨m, hm⟩, h2⟩
    · simp only [hk]
      have : (1 : ℚ) ≤ (k : ℚ) := by exact_mod_cast hk1
      linarith
    · simp only []
      linarith
    · simp only [hk]; push_cast; ring
  · exact ⟨h0, h1, ⟨k, hk⟩, ⟨m, hm⟩, h2⟩

theorem waitUntilCanMakeRequest_good (s : RateLimiter) (now : ℚ)
    (hg : GoodState s) (hmono : s.lastRefillTime ≤ now) :
    GoodState (waitUntilCanMakeRequest s now).1 := by
  have hr := refill_good s now hg hmono
  obtain ⟨h0, h1, ⟨k, hk⟩, ⟨m, hm⟩, h2⟩ := hr
  simp only [waitUntilCanMakeRequest, getTimeUntil_state]
  exact ⟨le_trans h0 h1, le_refl _, ⟨m, hm⟩, ⟨m, hm⟩, h2⟩

theorem applyOp_good (s : RateLimiter) (op : RLOp) (t : ℚ)
    (hg : GoodState s) (hmono : s.lastRefillTime ≤ t) :
    GoodState (applyOp s op t) := by
  cases op with
  | hasHit => exact hasHitRateLimit_good s t hg hmono
  | timeUntil => rw [applyOp, getTimeUntil_state]; exact refill_good s t hg hmono
  | wait => exact waitUntilCanMakeRequest_good s t hg hmono

theorem applyOp_lastRefillTime (s : RateLimiter) (op : RLOp) (t : ℚ) :
    (applyOp s op t).lastRefillTime = t := by
  cases op with
  | hasHit => exact hasHitRateLimit_lastRefillTime s t
  | timeUntil => rw [applyOp, getTimeUntil_state]; rfl
  | wait => simp only [applyOp, waitUntilCanMakeRequest, getTimeUntil_state]; rfl

theorem runOps_good : ∀ (ops : List (RLOp × ℚ)) (s : RateLimiter),
    GoodState s → timesMono s.lastRefillTime ops → GoodState (runOps s ops)
  | [], s, hg, _ => hg
  | (op, t) :: rest, s, hg, hmono => by
    obtain ⟨hle, hrest⟩ := hmono
    have hg2 := applyOp_good s op t hg hle
    have hlast := applyOp_lastRefillTime s op t
    exact runOps_good rest (applyOp s op t) hg2 (by rw [hlast]; exact hrest)

/-! ## Claims about the rate limiter -/

/-- C1: one call to `tryAdmit` (`hasHitRateLimit`) on a state satisfying
`0 <= tokens <= capacity` with non-negative elapsed time first sets
`tokens` to `min(capacity, tokens + floor(elapsed / refillIntervalMs))` and
advances `lastRefillTimestamp` to `now` (even when zero tokens are added),
then: if the refilled tokens value is positive it decrements tokens by
exactly 1 and reports admission (returns `false`, i.e. "has not hit the
rate limit"); otherwise it reports rejection (returns `true`) and leaves
tokens at 0. -/
theorem tryAdmit_spec (s : RateLimiter) (now : ℚ)
    (htok : 0 ≤ s.tokens) (hcap : s.tokens ≤ s.maxTokens)
    (hrate : 0 < s.refillRate) (helapsed : s.lastRefillTime ≤ now) :
    (refill s now).tokens
      = min s.maxTokens (s.tokens + (⌊(now - s.lastRefillTime) / s.refillRate⌋ : ℚ)) ∧
    (hasHitRateLimit s now).2.lastRefillTime = now ∧
    (0 < (refill s now).tokens →
       (hasHitRateLimit s now).1 = false ∧
       (hasHitRateLimit s now).2.tokens = (refill s now).tokens - 1) ∧
    (¬ 0 < (refill s now).tokens →
       (hasHitRateLimit s now).1 = true ∧
       (hasHitRateLimit s now).2.tokens = 0) := by
  refine ⟨?_, hasHitRateLimit_lastRefillTime s now, ?_, ?_⟩
  · simp only [refill]
    exact min_comm _ _
  · intro hpos
    simp [hasHitRateLimit, if_pos hpos]
  · intro hneg
    have h0 := refill_tokens_nonneg s now htok (le_trans htok hcap) hrate helapsed
    have hz : (refill s now).tokens = 0 := le_antisymm (not_lt.mp hneg) h0
    simp [hasHitRateLimit, if_neg hneg, hz]

/-- Witness for C1 at the spec §8 scenario: capacity 2, interval 1000,
zero tokens left at t=0, admission retried at t=2500: two tokens refill,
the call admits and one token remains. -/
theorem tryAdmit_spec_witness :
    (hasHitRateLimit ⟨0, 0, 1000, 2⟩ 2500).1 = false ∧
    (hasHitRateLimit ⟨0, 0, 1000, 2⟩ 2500).2.tokens = 1 ∧
    (hasHitRateLimit ⟨0, 0, 1000, 2⟩ 2500).2.lastRefillTime = 2500 := by
  have h := tryAdmit_spec ⟨0, 0, 1000, 2⟩ 2500 (by norm_num) (by norm_num)
    (by norm_num) (by norm_num)
  have hre : (refill ⟨0, 0, 1000, 2⟩ 2500).tokens = 2 := by
    norm_num [refill]
  obtain ⟨-, hlast, hpos, -⟩ := h
  obtain ⟨hadm, htk⟩ := hpos (by rw [hre]; norm_num)
  exact ⟨hadm, by rw [htk, hre]; norm_num, hlast⟩

/-- C4 as stated is false: the constructor accepts any positive `maxTokens`
(the TypeScript field is `number`), and with the fractional capacity 1/2 a
single admitted call drives `tokens` to -1/2, violating
`0 <= tokens` at an observation point. -/
theorem rateLimiter_invariant_counterexample :
    mkRateLimiter (1/2) 1000 0
        = some { tokens := 1/2, lastRefillTime := 0, refillRate := 1000, maxTokens := 1/2 } ∧
    (hasHitRateLimit { tokens := 1/2, lastRefillTime := 0, refillRate := 1000, maxTokens := 1/2 } 0).2.tokens
        = -(1/2) ∧
    ¬ (0 : ℚ) ≤ -(1/2) := by
  refine ⟨?_, ?_, by norm_num⟩
  · norm_num [mkRateLimiter]
  · norm_num [hasHitRateLimit, refill]

/-- C4 (amended): for every limiter built by the constructor with an INTEGER
capacity (as in the package default `{maxTokens: 10, refillRate: 5000}`),
the invariant `0 <= tokens <= capacity` holds after construction and is
preserved by every sequence of `tryAdmit` / `timeUntilNextTokenMs` /
`awaitAdmission` operations with non-decreasing wall-clock time. -/
theorem rateLimiter_invariant_integer_capacity
    (m : ℤ) (refillRate t0 : ℚ) (s0 : RateLimiter) (ops : List (RLOp × ℚ))
    (hmk : mkRateLimiter (m : ℚ) refillRate t0 = some s0)
    (hmono : timesMono t0 ops) :
    (0 ≤ s0.tokens ∧ s0.tokens ≤ s0.maxTokens) ∧
    0 ≤ (runOps s0 ops).tokens ∧
    (runOps s0 ops).tokens ≤ (runOps s0 ops).maxTokens := by
  simp only [mkRateLimiter] at hmk
  split at hmk
  · exact absurd hmk (by simp)
  · rename_i hcond
    push_neg at hcond
    obtain ⟨hrate, hm⟩ := hcond
    have hs0 : s0 = { tokens := (m : ℚ), lastRefillTime := t0,
                      refillRate := refillRate, maxTokens := (m : ℚ) } := by
      exact (Option.some_injective _ hmk).symm
    have hg : GoodState s0 := by
      rw [hs0]
      exact ⟨le_of_lt hm, le_refl _, ⟨m, rfl⟩, ⟨m, rfl⟩, hrate⟩
    have hlast : s0.lastRefillTime = t0 := by rw [hs0]
    have hrun := runOps_good ops s0 hg (by rw [hlast]; exact hmono)
    obtain ⟨r0, r1, -, -, -⟩ := hrun
    exact ⟨⟨hg.1, hg.2.1⟩, r0, r1⟩

/-- Witness for C4 (amended): the spec §8 scenario with capacity 2 and
interval 1000ms, followed by a wait and a later admission, keeps tokens
within bounds. -/
theorem rateLimiter_invariant_integer_capacity_witness :
    (0 ≤ (runOps { tokens := 2, lastRefillTime := 0, refillRate := 1000, maxTokens := 2 }
        [(RLOp.hasHit, 0), (RLOp.hasHit, 0), (RLOp.hasHit, 0),
         (RLOp.timeUntil, 500), (RLOp.wait, 500), (RLOp.hasHit, 2500)]).tokens) ∧
    ((runOps { tokens := 2, lastRefillTime := 0, refillRate := 1000, maxTokens := 2 }
        [(RLOp.hasHit, 0), (RLOp.hasHit, 0), (RLOp.hasHit, 0),
         (RLOp.timeUntil, 500), (RLOp.wait, 500), (RLOp.hasHit, 2500)]).tokens
      ≤ (runOps { tokens := 2, lastRefillTime := 0, refillRate := 1000, maxTokens := 2 }
        [(RLOp.hasHit, 0), (RLOp.hasHit, 0), (RLOp.hasHit, 0),
         (RLOp.timeUntil, 500), (RLOp.wait, 500), (RLOp.hasHit, 2500)]).maxTokens) := by
  have h := rateLimiter_invariant_integer_capacity 2 1000 0
    { tokens := 2, lastRefillTime := 0, refillRate := 1000, maxTokens := 2 }
    [(RLOp.hasHit, 0), (RLOp.hasHit, 0), (RLOp.hasHit, 0),
     (RLOp.timeUntil, 500), (RLOp.wait, 500), (RLOp.hasHit, 2500)]
    (by norm_num [mkRateLimiter]) (by norm_num [timesMono])
  exact ⟨h.2.1, h.2.2⟩

/-- C7: after `awaitAdmission` (`waitUntilCanMakeRequest`) resolves, `tokens`
equals `capacity` exactly, for every bucket state and any number of tokens
that would have naturally refilled (full refill after a wait, not a partial
top-up). -/
theorem awaitAdmission_full_refill (s : RateLimiter) (now : ℚ) :
    (waitUntilCanMakeRequest s now).1.tokens = s.maxTokens ∧
    (waitUntilCanMakeRequest s now).1.maxTokens = s.maxTokens := by
  simp only [waitUntilCanMakeRequest, getTimeUntil_state]
  exact ⟨rfl, rfl⟩

/-- C8: `timeUntilNextTokenMs` (`getTimeUntilCanMakeRequest`) first
recomputes the refill, returns 0 whenever a token is then available
(`tokens > 0`), and otherwise returns
`max(0, refillIntervalMs - elapsedSinceLastRefill)` (the elapsed time being
measured after the refill just advanced `lastRefillTimestamp` to `now`),
a value within `[0, refillIntervalMs]`. -/
theorem timeUntilNextToken_spec (s : RateLimiter) (now : ℚ)
    (hrate : 0 < s.refillRate) :
    (getTimeUntilCanMakeRequest s now).2 = refill s now ∧
    (0 < (refill s now).tokens → (getTimeUntilCanMakeRequest s now).1 = 0) ∧
    (¬ 0 < (refill s now).tokens →
       (getTimeUntilCanMakeRequest s now).1
         = max 0 (s.refillRate - (now - (refill s now).lastRefillTime)) ∧
       0 ≤ (getTimeUntilCanMakeRequest s now).1 ∧
       (getTimeUntilCanMakeRequest s now).1 ≤ s.refillRate) := by
  refine ⟨getTimeUntil_state s now, ?_, ?_⟩
  · intro hpos
    simp only [getTimeUntilCanMakeRequest, if_pos hpos]
  · intro hneg
    have hval : (getTimeUntilCanMakeRequest s now).1
        = max 0 (s.refillRate - (now - (refill s now).lastRefillTime)) := by
      simp [getTimeUntilCanMakeRequest, if_neg hneg, refill_lastRefillTime,
        refill_refillRate]
    refine ⟨hval, ?_, ?_⟩
    · rw [hval]; exact le_max_left _ _
    · rw [hval, refill_lastRefillTime]
      have hnn : now - now = 0 := by ring
      rw [hnn, sub_zero]
      exact max_le (le_of_lt hrate) (le_refl _)

/-- Witness for C8 at an empty bucket: tokens 0, interval 1000, no elapsed
time: the wait estimate is exactly one full interval (1000ms), within
`[0, 1000]`. -/
theorem timeUntilNextToken_spec_witness :
    (getTimeUntilCanMakeRequest { tokens := 0, lastRefillTime := 0, refillRate := 1000, maxTokens := 2 } 0).1
      = 1000 ∧
    (0 : ℚ) ≤ 1000 ∧ (1000 : ℚ) ≤ 1000 := by
  have h := timeUntilNextToken_spec
    { tokens := 0, lastRefillTime := 0, refillRate := 1000, maxTokens := 2 } 0 (by norm_num)
  have hre : (refill { tokens := 0, lastRefillTime := 0, refillRate := 1000, maxTokens := 2 } 0).tokens = 0 := by
    norm_num [refill]
  obtain ⟨-, -, hng⟩ := h
  obtain ⟨hval, -, -⟩ := hng (by rw [hre]; norm_num)
  refine ⟨?_, by norm_num, by norm_num⟩
  rw [hval]
  norm_num [refill]

/-! ## Request dispatcher (src/utils/embedBuilder.ts, Api._makeRequest) -/

/-- The `EVENT_TYPE` enumeration (the source value `"instance"` is spelled
`instanceEv` here because `instance` is a Lean keyword). -/
inductive EventType
  | init | login | logout | register | license | fetchStats | ban
  | changeUsername | checkblacklist | check | file | fetchOnline | forgot
  | chatget | getvar | log | chatsend | setvar | upgrade | webhook | var
  | request | response | metadata | error | session | instanceEv | ratelimit
deriving DecidableEq, Repr

/-- The `ERROR_CODE` enumeration (`seesionKilled`, `noSessionID`,
`notInitialized`, `notLoggedIn`, `unsupportedVarType`, `unknown`,
`noChatChannel`, `invalidClientApi`). -/
inductive ErrorCode
  | K_SK | K_NSID | K_NI | K_NLI | K_UVT | K_U | K_NCC | K_ICA
deriving DecidableEq, Repr

/-- A JavaScript response payload object; each field is `none` when absent
(`undefined`). `response` holds the raw `response` field of a webhook
payload and `data` the remapped field it is copied into. -/
structure Payload where
  success : Option Bool
  message : Option String
  nonce : Option String
  response : Option String
  data : Option String
  time : Option ℚ
deriving DecidableEq, Repr

/-- The payload `{}` (all fields absent). -/
def emptyPayload : Payload :=
  { success := none, message := none, nonce := none, response := none,
    data := none, time := none }

/-- The raw transport body: either the sentinel string `"KeyAuth_Invalid"`
or a JSON object. -/
inductive RawData
  | invalidSentinel
  | obj (p : Payload)
deriving DecidableEq, Repr

/-- Outcome of the Axios call: a resolved response (status, body, and the
request duration `endTime - startTime`), or a thrown error whose `.message`
may be absent. The two catch branches (AxiosError / other) differ only in
logging, so a single constructor models both. -/
inductive HttpOutcome
  | ok (status : ℤ) (data : RawData) (duration : ℚ)
  | thrown (message : Option String)
deriving DecidableEq, Repr

/-- The envelope fields `_makeRequest` inspects: the operation tag
`params.type` and `params.sessionid` (absent for operations such as init). -/
structure Params where
  type : EventType
  sessionid : Option String
deriving DecidableEq, Repr

/-- An emitted notification. `response`/`request`/`error` are the
cross-cutting event names; `named` is the per-operation event (for example
the `init` event emitted by `Api.init`). The first `EventType` argument is
the `type` field carried inside the payload. -/
inductive Event
  | response (typeField : EventType) (payload : Payload)
  | request (typeField : EventType) (payload : Payload)
  | error (typeField : EventType) (message : Option String) (code : ErrorCode)
  | named (typeField : EventType) (payload : Payload)
deriving DecidableEq, Repr

/-- JavaScript `String(x)` applied to a possibly-absent string: an absent
value prints as `"undefined"`. -/
def jsString : Option String → String
  | some s => s
  | none => "undefined"

/-- Structural prefix test on strings, mirroring JavaScript
`String.prototype.startsWith`. -/
def charsStartWith : List Char → List Char → Bool
  | [], _ => true
  | _ :: _, [] => false
  | p :: ps, c :: cs => p = c && charsStartWith ps cs

/-- `a.startsWith(b)` of JavaScript: does `a` begin with `b`? -/
def jsStartsWith (a b : String) : Bool := charsStartWith b.data a.data

/-- Response normalization of `_makeRequest` (lines 1417-1441): first the
`"KeyAuth_Invalid"` sentinel is replaced by a synthesized failure object,
then a `log` operation with HTTP status 200 overwrites the payload with
`{success: true, message: "Log successfully sent."}`, then a `webhook`
operation with status 200 remaps `{success, message, nonce, response}` to
`{success, message, nonce, data: response}`. -/
def normalize (ty : EventType) (status : ℤ) (responseTime : ℚ) (data : RawData) : Payload :=
  let p1 : Payload :=
    match data with
    | RawData.invalidSentinel =>
        { success := some false,
          message := some "Keyauth API client not set up correctly!",
          time := some responseTime,
          nonce := none, response := none, data := none }
    | RawData.obj p => p
  let p2 : Payload :=
    if ty = EventType.log ∧ status = 200 then
      { success := some true, message := some "Log successfully sent.",
        nonce := none, response := none, data := none, time := none }
    else p1
  if ty = EventType.webhook ∧ status = 200 then
    { success := p2.success, message := p2.message, nonce := p2.nonce,
      data := p2.response, response := none, time := none }
  else p2

/-- The ordered error-classification cascade of `_makeRequest`
(lines 1462-1515), returning the emitted `errorCode` together with the
message carried by the emitted error notification. -/
def classifyError (sessionid : Option String) (msg : Option String) : ErrorCode × Option String :=
  if sessionid = some "" ∧ jsStartsWith (jsString msg) "Session not found." = true then
    (ErrorCode.K_NSID, msg)
  else if jsStartsWith (jsString msg) "Session not found." = true then
    (ErrorCode.K_SK, some "The session was killed!")
  else if jsString msg = "Chat channel not found" then
    (ErrorCode.K_NCC, some "Chat channel not found")
  else if jsStartsWith (jsString msg) "Keyauth API client" = true then
    (ErrorCode.K_ICA, msg)
  else
    (ErrorCode.K_U, msg)

/-- The rate-limit notification payload emitted via
`emit(RESPONSE, {type: RATE_LIMIT, success: false, message: ..., time:
startTime - Date.now()})`. Note its `type` field is the constant
`RATE_LIMIT`, not the operation type. -/
def rateLimitPayload (estimate : String) (startTime now : ℚ) : Payload :=
  { success := some false,
    message := some ("Client Api rate limit hit please wait " ++ estimate),
    nonce := none, response := none, data := none,
    time := some (startTime - now) }

/-- The post-admission body of `_makeRequest` for a resolved HTTP call:
normalization, response/request events, error classification, and the
returned value (`none` models the bare `return;` of the `skipError`
branch). -/
def executeRequest (params : Params) (skipResponse skipError : Bool)
    (responseTime : ℚ) (status : ℤ) (data : RawData) : Option Payload × List Event :=
  let norm := normalize params.type status responseTime data
  let out : Payload := { norm with time := some responseTime }
  let respEvents := if skipResponse then [] else [Event.response params.type out]
  let reqEvents := [Event.request params.type out]
  if norm.success = some false then
    if skipError then (none, respEvents ++ reqEvents)
    else
      let c := classifyError params.sessionid norm.message
      (some out, respEvents ++ reqEvents ++ [Event.error params.type c.2 c.1])
  else (some out, respEvents ++ reqEvents)

/-- Result of one `_makeRequest` call: the returned value (`none` = the
JavaScript function returned `undefined`), the notifications emitted in
order, the final limiter state, and how many rate-limit waits occurred. -/
structure DispatchOutput where
  result : Option Payload
  events : List Event
  limiter : RateLimiter
  waits : ℕ
deriving DecidableEq, Repr

/-- `Api._makeRequest` (lines 1373-1542). The recursion of the rate-limit
branch is modelled with a fuel parameter; the fuel-0 case is unreachable
for fuel >= 2 (proved in the C5 theorem). On rejection the code renders
the wait estimate twice (once for the emitted payload, once for the debug
log), each rendering refilling the limiter, then awaits
`waitUntilCanMakeRequest` and retries at the resume instant. On a thrown
transport error the catch branch emits an `error` notification with code
`unknown` and falls through, returning `undefined`. -/
def makeRequest : ℕ → RateLimiter → Params → Bool → Bool → ℚ → HttpOutcome → DispatchOutput
  | 0, s, _, _, _, _, _ => ⟨none, [], s, 0⟩
  | Nat.succ fuel, s, params, skipResponse, skipError, now, outcome =>
    let startTime := now
    let a := hasHitRateLimit s startTime
    if a.1 then
      let e1 := getTimeUntilCanMakeRequestString a.2 startTime
      let ev := Event.response EventType.ratelimit (rateLimitPayload e1.1 startTime startTime)
      let e2 := getTimeUntilCanMakeRequestString e1.2 startTime
      let w := waitUntilCanMakeRequest e2.2 startTime
      let rest := makeRequest fuel w.1 params skipResponse skipError w.2 outcome
      ⟨rest.result, ev :: rest.events, rest.limiter, rest.waits + 1⟩
    else
      match outcome with
      | HttpOutcome.ok status data duration =>
        let r := executeRequest params skipResponse skipError duration status data
        ⟨r.1, r.2, a.2, 0⟩
      | HttpOutcome.thrown msg =>
        ⟨none, [Event.error params.type msg ErrorCode.K_U], a.2, 0⟩

/-- The error code of the first emitted `error` notification, if any. -/
def emittedErrorCode (out : DispatchOutput) : Option ErrorCode :=
  out.events.findSome? fun e =>
    match e with
    | Event.error _ _ c => some c
    | _ => none

/-! ### Helper lemmas about the dispatcher -/

theorem getTimeUntil_fst_nonneg (s : RateLimiter) (now : ℚ) :
    0 ≤ (getTimeUntilCanMakeRequest s now).1 := by
  simp only [getTimeUntilCanMakeRequest]
  split
  · exact le_refl 0
  · exact le_max_left _ _

theorem getTimeUntilString_state (s : RateLimiter) (now : ℚ) :
    (getTimeUntilCanMakeRequestString s now).2 = refill s now := by
  simp only [getTimeUntilCanMakeRequestString]
  split
  · exact getTimeUntil_state s now
  · split
    · exact getTimeUntil_state s now
    · split
      · exact getTimeUntil_state s now
      · split
        · exact getTimeUntil_state s now
        · exact getTimeUntil_state s now

theorem waitUntil_fields (s : RateLimiter) (now : ℚ) :
    (waitUntilCanMakeRequest s now).1.tokens = s.maxTokens ∧
    (waitUntilCanMakeRequest s now).1.maxTokens = s.maxTokens ∧
    (waitUntilCanMakeRequest s now).1.refillRate = s.refillRate ∧
    (waitUntilCanMakeRequest s now).1.lastRefillTime = now ∧
    now ≤ (waitUntilCanMakeRequest s now).2 := by
  simp only [waitUntilCanMakeRequest, getTimeUntil_state]
  refine ⟨rfl, rfl, rfl, rfl, ?_⟩
  have := getTimeUntil_fst_nonneg s now
  linarith

/-- After the rate-limit branch renders the wait estimate twice and awaits
admission, this is the limiter state and resume instant at which the retry
runs. -/
def rateLimitRetry (s : RateLimiter) (now : ℚ) : RateLimiter × ℚ :=
  let e1 := getTimeUntilCanMakeRequestString (hasHitRateLimit s now).2 now
  let e2 := getTimeUntilCanMakeRequestString e1.2 now
  waitUntilCanMakeRequest e2.2 now

theorem makeRequest_rejected_step (fuel : ℕ) (s : RateLimiter) (params : Params)
    (skipResponse skipError : Bool) (now : ℚ) (outcome : HttpOutcome)
    (hreject : (hasHitRateLimit s now).1 = true) :
    makeRequest (Nat.succ fuel) s params skipResponse skipError now outcome =
      { result := (makeRequest fuel (rateLimitRetry s now).1 params skipResponse skipError
                     (rateLimitRetry s now).2 outcome).result,
        events := Event.response EventType.ratelimit
            (rateLimitPayload (getTimeUntilCanMakeRequestString (hasHitRateLimit s now).2 now).1 now now)
          :: (makeRequest fuel (rateLimitRetry s now).1 params skipResponse skipError
                (rateLimitRetry s now).2 outcome).events,
        limiter := (makeRequest fuel (rateLimitRetry s now).1 params skipResponse skipError
                      (rateLimitRetry s now).2 outcome).limiter,
        waits := (makeRequest fuel (rateLimitRetry s now).1 params skipResponse skipError
                    (rateLimitRetry s now).2 outcome).waits + 1 } := by
  simp only [makeRequest, hreject, if_true, rateLimitRetry]

theorem makeRequest_admitted_ok (fuel : ℕ) (s : RateLimiter) (params : Params)
    (skipResponse skipError : Bool) (now duration : ℚ) (status : ℤ) (data : RawData)
    (hadm : (hasHitRateLimit s now).1 = false) :
    makeRequest (Nat.succ fuel) s params skipResponse skipError now
        (HttpOutcome.ok status data duration) =
      { result := (executeRequest params skipResponse skipError duration status data).1,
        events := (executeRequest params skipResponse skipError duration status data).2,
        limiter := (hasHitRateLimit s now).2,
        waits := 0 } := by
  simp only [makeRequest, hadm, Bool.false_eq_true, if_false]

theorem makeRequest_admitted_thrown (fuel : ℕ) (s : RateLimiter) (params : Params)
    (skipResponse skipError : Bool) (now : ℚ) (msg : Option String)
    (hadm : (hasHitRateLimit s now).1 = false) :
    makeRequest (Nat.succ fuel) s params skipResponse skipError now
        (HttpOutcome.thrown msg) =
      { result := none,
        events := [Event.error params.type msg ErrorCode.K_U],
        limiter := (hasHitRateLimit s now).2,
        waits := 0 } := by
  simp only [makeRequest, hadm, Bool.false_eq_true, if_false]

theorem emittedErrorCode_fail (fuel : ℕ) (s : RateLimiter) (params : Params)
    (skipResponse : Bool) (now duration : ℚ) (status : ℤ) (data : RawData)
    (hadm : (hasHitRateLimit s now).1 = false)
    (hfail : (normalize params.type status duration data).success = some false) :
    emittedErrorCode (makeRequest (Nat.succ fuel) s params skipResponse false now
        (HttpOutcome.ok status data duration))
      = some (classifyError params.sessionid
          (normalize params.type status duration data).message).1 := by
  rw [makeRequest_admitted_ok fuel s params skipResponse false now duration status data hadm]
  simp only [emittedErrorCode, executeRequest, hfail]
  cases skipResponse <;> simp [List.findSome?]

/-! ## Claims about the dispatcher -/

/-- C6: the response-normalization step implements exactly the three
reshaping rules: a `log` operation on HTTP 200 yields exactly
`{success: true, message: "Log successfully sent."}` regardless of payload
content (even the sentinel); a `webhook` operation on transport success
remaps `{success, message, nonce, response}` to
`{success, message, nonce, data: response}`; and the literal
`"KeyAuth_Invalid"` payload is replaced by
`{success: false, message: "Keyauth API client not set up correctly!",
time}` (the log/webhook rules, which the code applies afterwards, taking
precedence on their own operations). -/
theorem normalization_spec :
    (∀ (rt : ℚ) (data : RawData),
        normalize EventType.log 200 rt data
          = { success := some true, message := some "Log successfully sent.",
              nonce := none, response := none, data := none, time := none }) ∧
    (∀ (rt : ℚ) (p : Payload),
        normalize EventType.webhook 200 rt (RawData.obj p)
          = { success := p.success, message := p.message, nonce := p.nonce,
              data := p.response, response := none, time := none }) ∧
    (∀ (ty : EventType) (status : ℤ) (rt : ℚ),
        ¬(ty = EventType.log ∧ status = 200) →
        ¬(ty = EventType.webhook ∧ status = 200) →
        normalize ty status rt RawData.invalidSentinel
          = { success := some false,
              message := some "Keyauth API client not set up correctly!",
              time := some rt, nonce := none, response := none, data := none }) := by
  refine ⟨?_, ?_, ?_⟩
  · intro rt data
    simp [normalize]
  · intro rt p
    simp [normalize]
  · intro ty status rt h1 h2
    simp [normalize, h1, h2]

/-- Witness for C6: the sentinel rule fires for an operation that is neither
`log` nor `webhook` (here a `check` with HTTP 200). -/
theorem normalization_spec_witness :
    normalize EventType.check 200 7 RawData.invalidSentinel
      = { success := some false,
          message := some "Keyauth API client not set up correctly!",
          time := some 7, nonce := none, response := none, data := none } :=
  normalization_spec.2.2 EventType.check 200 7 (by decide) (by decide)

/-- C2: for every dispatched request whose normalized result has
`success == false` and whose error notification is not suppressed, the
emitted error kind follows the ordered first-match-wins cascade: message
starting with "Session not found." with an empty session id in the request
gives `noSessionID`; the same message with a session id other than the
empty string gives `seesionKilled`; otherwise a message equal to
"Chat channel not found" gives `noChatChannel`; otherwise a message
starting with "Keyauth API client" gives `invalidClientApi`; any other
failing message gives `unknown`. -/
theorem errorClassification_spec (fuel : ℕ) (s : RateLimiter) (params : Params)
    (skipResponse : Bool) (now duration : ℚ) (status : ℤ) (data : RawData)
    (msg : String)
    (hadm : (hasHitRateLimit s now).1 = false)
    (hfail : (normalize params.type status duration data).success = some false)
    (hmsg : msg = jsString (normalize params.type status duration data).message) :
    (params.sessionid = some "" → jsStartsWith msg "Session not found." = true →
       emittedErrorCode (makeRequest (Nat.succ fuel) s params skipResponse false now
         (HttpOutcome.ok status data duration)) = some ErrorCode.K_NSID) ∧
    (params.sessionid ≠ some "" → jsStartsWith msg "Session not found." = true →
       emittedErrorCode (makeRequest (Nat.succ fuel) s params skipResponse false now
         (HttpOutcome.ok status data duration)) = some ErrorCode.K_SK) ∧
    (jsStartsWith msg "Session not found." = false → msg = "Chat channel not found" →
       emittedErrorCode (makeRequest (Nat.succ fuel) s params skipResponse false now
         (HttpOutcome.ok status data duration)) = some ErrorCode.K_NCC) ∧
    (jsStartsWith msg "Session not found." = false → msg ≠ "Chat channel not found" →
       jsStartsWith msg "Keyauth API client" = true →
       emittedErrorCode (makeRequest (Nat.succ fuel) s params skipResponse false now
         (HttpOutcome.ok status data duration)) = some ErrorCode.K_ICA) ∧
    (jsStartsWith msg "Session not found." = false → msg ≠ "Chat channel not found" →
       jsStartsWith msg "Keyauth API client" = false →
       emittedErrorCode (makeRequest (Nat.succ fuel) s params skipResponse false now
         (HttpOutcome.ok status data duration)) = some ErrorCode.K_U) := by
  subst hmsg
  have hcode := emittedErrorCode_fail fuel s params skipResponse now duration status data
    hadm hfail
  refine ⟨?_, ?_, ?_, ?_, ?_⟩
  · intro h1 h2
    rw [hcode]
    simp [classifyError, h1, h2]
  · intro h1 h2
    rw [hcode]
    simp [classifyError, h1, h2]
  · intro h1 h2
    rw [hcode]
    rw [h2] at h1
    simp [classifyError, h1, h2]
  · intro h1 h2 h3
    rw [hcode]
    simp [classifyError, h1, h2, h3]
  · intro h1 h2 h3
    rw [hcode]
    simp [classifyError, h1, h2, h3]

/-- A concrete failing payload carrying the message "Session not found.". -/
def failingSessionPayload : Payload :=
  { emptyPayload with success := some false, message := some "Session not found." }

/-- Witness for C2: a failing `login` response "Session not found." with an
empty session id in the request classifies as `noSessionID`. -/
theorem errorClassification_spec_witness :
    emittedErrorCode (makeRequest 1
        { tokens := 10, lastRefillTime := 0, refillRate := 5000, maxTokens := 10 }
        { type := EventType.login, sessionid := some "" } false false 0
        (HttpOutcome.ok 200
          (RawData.obj failingSessionPayload) 5))
      = some ErrorCode.K_NSID := by
  have h := errorClassification_spec 0
    { tokens := 10, lastRefillTime := 0, refillRate := 5000, maxTokens := 10 }
    { type := EventType.login, sessionid := some "" } false 0 5 200
    (RawData.obj failingSessionPayload)
    "Session not found."
    (by norm_num [hasHitRateLimit, refill])
    (by simp [normalize, failingSessionPayload, emptyPayload])
    (by simp [normalize, failingSessionPayload, emptyPayload, jsString])
  exact h.1 rfl (by decide)

/-- C3 as stated is false: on a transport-level throw the catch branch of
`_makeRequest` emits the `unknown` error notification but then falls
through, returning `undefined` (`none`) — the caller does NOT receive a
result object whose `success` field it can inspect. -/
theorem dispatch_transport_throw_counterexample :
    (makeRequest 1 { tokens := 10, lastRefillTime := 0, refillRate := 5000, maxTokens := 10 }
        { type := EventType.login, sessionid := some "sid" } false false 0
        (HttpOutcome.thrown (some "Network Error"))).result = none ∧
    (makeRequest 1 { tokens := 10, lastRefillTime := 0, refillRate := 5000, maxTokens := 10 }
        { type := EventType.login, sessionid := some "sid" } false false 0
        (HttpOutcome.thrown (some "Network Error"))).events
      = [Event.error EventType.login (some "Network Error") ErrorCode.K_U] := by
  rw [makeRequest_admitted_thrown 0
    { tokens := 10, lastRefillTime := 0, refillRate := 5000, maxTokens := 10 }
    { type := EventType.login, sessionid := some "sid" } false false 0
    (some "Network Error") (by norm_num [hasHitRateLimit, refill])]
  exact ⟨rfl, rfl⟩

/-- C3 (amended): dispatch never propagates a transport-level throw: the
failure is classified as `unknown` and an error notification carrying the
thrown message is emitted; but the value returned to the caller is
`undefined` (modelled `none`), not a `success:false` result — the error
event is the only channel reporting the failure. -/
theorem dispatch_transport_throw_spec (fuel : ℕ) (s : RateLimiter) (params : Params)
    (skipResponse skipError : Bool) (now : ℚ) (msg : Option String)
    (hadm : (hasHitRateLimit s now).1 = false) :
    (makeRequest (Nat.succ fuel) s params skipResponse skipError now
        (HttpOutcome.thrown msg)).result = none ∧
    (makeRequest (Nat.succ fuel) s params skipResponse skipError now
        (HttpOutcome.thrown msg)).events
      = [Event.error params.type msg ErrorCode.K_U] ∧
    emittedErrorCode (makeRequest (Nat.succ fuel) s params skipResponse skipError now
        (HttpOutcome.thrown msg)) = some ErrorCode.K_U := by
  rw [makeRequest_admitted_thrown fuel s params skipResponse skipError now msg hadm]
  refine ⟨rfl, rfl, ?_⟩
  simp [emittedErrorCode, List.findSome?]

/-- Witness for C3 (amended) at a concrete admitted dispatch whose HTTP call
throws. -/
theorem dispatch_transport_throw_spec_witness :
    (makeRequest 1 { tokens := 3, lastRefillTime := 0, refillRate := 1000, maxTokens := 3 }
        { type := EventType.register, sessionid := some "abc" } true false 0
        (HttpOutcome.thrown none)).result = none ∧
    (makeRequest 1 { tokens := 3, lastRefillTime := 0, refillRate := 1000, maxTokens := 3 }
        { type := EventType.register, sessionid := some "abc" } true false 0
        (HttpOutcome.thrown none)).events
      = [Event.error EventType.register none ErrorCode.K_U] := by
  have h := dispatch_transport_throw_spec 0
    { tokens := 3, lastRefillTime := 0, refillRate := 1000, maxTokens := 3 }
    { type := EventType.register, sessionid := some "abc" } true false 0 none
    (by norm_num [hasHitRateLimit, refill])
  exact ⟨h.1, h.2.1⟩

theorem rateLimitRetry_preWait_fields (s : RateLimiter) (now : ℚ) :
    (getTimeUntilCanMakeRequestString
        (getTimeUntilCanMakeRequestString (hasHitRateLimit s now).2 now).2 now).2.maxTokens
      = s.maxTokens ∧
    (getTimeUntilCanMakeRequestString
        (getTimeUntilCanMakeRequestString (hasHitRateLimit s now).2 now).2 now).2.refillRate
      = s.refillRate := by
  rw [getTimeUntilString_state, getTimeUntilString_state]
  constructor
  · rw [refill_maxTokens, refill_maxTokens, hasHitRateLimit_maxTokens]
  · rw [refill_refillRate, refill_refillRate, hasHitRateLimit_refillRate]

theorem rateLimitRetry_admits (s : RateLimiter) (now : ℚ)
    (hmax : 0 < s.maxTokens) (hrate : 0 < s.refillRate) :
    (hasHitRateLimit (rateLimitRetry s now).1 (rateLimitRetry s now).2).1 = false := by
  obtain ⟨hpm, hpr⟩ := rateLimitRetry_preWait_fields s now
  have hw := waitUntil_fields
    (getTimeUntilCanMakeRequestString
      (getTimeUntilCanMakeRequestString (hasHitRateLimit s now).2 now).2 now).2 now
  obtain ⟨htok, hmax2, hrate2, hlast, hresume⟩ := hw
  have h1 : (rateLimitRetry s now).1.tokens = s.maxTokens := by
    rw [rateLimitRetry] at *; rw [htok, hpm]
  have h2 : (rateLimitRetry s now).1.maxTokens = s.maxTokens := by
    rw [rateLimitRetry] at *; rw [hmax2, hpm]
  have h3 : (rateLimitRetry s now).1.refillRate = s.refillRate := by
    rw [rateLimitRetry] at *; rw [hrate2, hpr]
  have h4 : (rateLimitRetry s now).1.lastRefillTime = now := by
    rw [rateLimitRetry] at *; rw [hlast]
  have h5 : now ≤ (rateLimitRetry s now).2 := by
    rw [rateLimitRetry] at *; exact hresume
  have hfloor : (0 : ℤ) ≤
      ⌊((rateLimitRetry s now).2 - (rateLimitRetry s now).1.lastRefillTime)
         / (rateLimitRetry s now).1.refillRate⌋ := by
    apply Int.floor_nonneg.mpr
    apply div_nonneg
    · rw [h4]; linarith
    · rw [h3]; linarith
  have hfloorq : (0 : ℚ) ≤
      (⌊((rateLimitRetry s now).2 - (rateLimitRetry s now).1.lastRefillTime)
         / (rateLimitRetry s now).1.refillRate⌋ : ℚ) := by exact_mod_cast hfloor
  have htokens : (refill (rateLimitRetry s now).1 (rateLimitRetry s now).2).tokens
      = s.maxTokens := by
    simp only [refill]
    rw [h1]
    have : (rateLimitRetry s now).1.maxTokens = s.maxTokens := h2
    rw [this]
    exact min_eq_right (by linarith)
  have hpos : 0 < (refill (rateLimitRetry s now).1 (rateLimitRetry s now).2).tokens := by
    rw [htokens]; exact hmax
  simp [hasHitRateLimit, hpos]

theorem makeRequest_admitted_one (fuel : ℕ) (s : RateLimiter) (params : Params)
    (skipResponse skipError : Bool) (now : ℚ) (outcome : HttpOutcome)
    (hadm : (hasHitRateLimit s now).1 = false) :
    makeRequest (Nat.succ fuel) s params skipResponse skipError now outcome
      = makeRequest 1 s params skipResponse skipError now outcome ∧
    (makeRequest 1 s params skipResponse skipError now outcome).waits = 0 := by
  cases outcome with
  | ok status data duration =>
    rw [makeRequest_admitted_ok fuel s params skipResponse skipError now duration status data hadm,
        makeRequest_admitted_ok 0 s params skipResponse skipError now duration status data hadm]
    exact ⟨rfl, rfl⟩
  | thrown msg =>
    rw [makeRequest_admitted_thrown fuel s params skipResponse skipError now msg hadm,
        makeRequest_admitted_thrown 0 s params skipResponse skipError now msg hadm]
    exact ⟨rfl, rfl⟩

/-- C5 as stated is false in one respect: the rate-limit notification does
not carry the operation type. At a concrete rejected `login` dispatch, the
emitted notification payload's `type` field is the constant `ratelimit`
tag, not `login`. -/
theorem rateLimit_notification_counterexample :
    (makeRequest 2 { tokens := 0, lastRefillTime := 0, refillRate := 1000, maxTokens := 2 }
        { type := EventType.login, sessionid := some "sid" } false false 0
        (HttpOutcome.ok 200 (RawData.obj emptyPayload) 0)).events.head?
      = some (Event.response EventType.ratelimit (rateLimitPayload "1 second" 0 0)) ∧
    EventType.ratelimit ≠ EventType.login := by
  have hreject : (hasHitRateLimit
      { tokens := 0, lastRefillTime := 0, refillRate := 1000, maxTokens := 2 } 0).1 = true := by
    norm_num [hasHitRateLimit, refill]
  have hstep := makeRequest_rejected_step 1
    { tokens := 0, lastRefillTime := 0, refillRate := 1000, maxTokens := 2 }
    { type := EventType.login, sessionid := some "sid" } false false 0
    (HttpOutcome.ok 200 (RawData.obj emptyPayload) 0) hreject
  refine ⟨?_, by decide⟩
  rw [hstep]
  have hs2 : (hasHitRateLimit
      { tokens := 0, lastRefillTime := 0, refillRate := 1000, maxTokens := 2 } 0).2
      = { tokens := 0, lastRefillTime := 0, refillRate := 1000, maxTokens := 2 } := by
    norm_num [hasHitRateLimit, refill]
  rw [hs2]
  have hstr : (getTimeUntilCanMakeRequestString
      { tokens := 0, lastRefillTime := 0, refillRate := 1000, maxTokens := 2 } 0).1
      = "1 second" := by
    norm_num [getTimeUntilCanMakeRequestString, getTimeUntilCanMakeRequest, refill]
    rfl
  rw [hstr]
  rfl

/-- C5 (amended): when the rate limiter rejects admission, dispatch emits a
rate-limit notification tagged with the constant `ratelimit` type (not the
operation type) carrying a human-readable wait estimate, then awaits
admission and retries recursively; the retry never gives up (the result does
not depend on the fuel bound beyond 2), and for a well-formed limiter
(capacity and refill interval positive) the retry is admitted, so HTTP
execution is reached after exactly one wait. -/
theorem rateLimit_reject_retry_spec (s : RateLimiter) (params : Params)
    (skipResponse skipError : Bool) (now : ℚ) (outcome : HttpOutcome)
    (hmax : 0 < s.maxTokens) (hrate : 0 < s.refillRate)
    (hreject : (hasHitRateLimit s now).1 = true) :
    ((makeRequest 2 s params skipResponse skipError now outcome).events.head?
       = some (Event.response EventType.ratelimit
           (rateLimitPayload
             (getTimeUntilCanMakeRequestString (hasHitRateLimit s now).2 now).1 now now))) ∧
    (hasHitRateLimit (rateLimitRetry s now).1 (rateLimitRetry s now).2).1 = false ∧
    (makeRequest 2 s params skipResponse skipError now outcome).waits = 1 ∧
    (∀ n : ℕ, makeRequest (2 + n) s params skipResponse skipError now outcome
       = makeRequest 2 s params skipResponse skipError now outcome) := by
  have hadm2 := rateLimitRetry_admits s now hmax hrate
  have hstep : makeRequest 2 s params skipResponse skipError now outcome =
      { result := (makeRequest 1 (rateLimitRetry s now).1 params skipResponse skipError
                     (rateLimitRetry s now).2 outcome).result,
        events := Event.response EventType.ratelimit
            (rateLimitPayload (getTimeUntilCanMakeRequestString (hasHitRateLimit s now).2 now).1 now now)
          :: (makeRequest 1 (rateLimitRetry s now).1 params skipResponse skipError
                (rateLimitRetry s now).2 outcome).events,
        limiter := (makeRequest 1 (rateLimitRetry s now).1 params skipResponse skipError
                      (rateLimitRetry s now).2 outcome).limiter,
        waits := (makeRequest 1 (rateLimitRetry s now).1 params skipResponse skipError
                    (rateLimitRetry s now).2 outcome).waits + 1 } :=
    makeRequest_rejected_step 1 s params skipResponse skipError now outcome hreject
  have hinnerw : (makeRequest 1 (rateLimitRetry s now).1 params skipResponse skipError
      (rateLimitRetry s now).2 outcome).waits = 0 :=
    (makeRequest_admitted_one 0 (rateLimitRetry s now).1 params skipResponse skipError
      (rateLimitRetry s now).2 outcome hadm2).2
  refine ⟨by rw [hstep]; rfl, hadm2, by rw [hstep]; simp [hinnerw], ?_⟩
  intro n
  have h2n : 2 + n = Nat.succ (Nat.succ n) := by omega
  have hstepn : makeRequest (2 + n) s params skipResponse skipError now outcome =
      { result := (makeRequest (Nat.succ n) (rateLimitRetry s now).1 params skipResponse skipError
                     (rateLimitRetry s now).2 outcome).result,
        events := Event.response EventType.ratelimit
            (rateLimitPayload (getTimeUntilCanMakeRequestString (hasHitRateLimit s now).2 now).1 now now)
          :: (makeRequest (Nat.succ n) (rateLimitRetry s now).1 params skipResponse skipError
                (rateLimitRetry s now).2 outcome).events,
        limiter := (makeRequest (Nat.succ n) (rateLimitRetry s now).1 params skipResponse skipError
                      (rateLimitRetry s now).2 outcome).limiter,
        waits := (makeRequest (Nat.succ n) (rateLimitRetry s now).1 params skipResponse skipError
                    (rateLimitRetry s now).2 outcome).waits + 1 } := by
    rw [h2n]
    exact makeRequest_rejected_step (Nat.succ n) s params skipResponse skipError now outcome hreject
  have hin : makeRequest (Nat.succ n) (rateLimitRetry s now).1 params skipResponse skipError
      (rateLimitRetry s now).2 outcome
      = makeRequest 1 (rateLimitRetry s now).1 params skipResponse skipError
          (rateLimitRetry s now).2 outcome :=
    (makeRequest_admitted_one n (rateLimitRetry s now).1 params skipResponse skipError
      (rateLimitRetry s now).2 outcome hadm2).1
  rw [hstepn, hin, hstep]

/-- Witness for C5 (amended) at a concrete rejected dispatch: capacity 2,
empty bucket at t=0; the retry is admitted and exactly one wait occurs. -/
theorem rateLimit_reject_retry_spec_witness :
    (makeRequest 2 { tokens := 0, lastRefillTime := 0, refillRate := 1000, maxTokens := 2 }
        { type := EventType.check, sessionid := some "sid" } false false 0
        (HttpOutcome.ok 200 (RawData.obj emptyPayload) 0)).waits = 1 ∧
    (hasHitRateLimit
        (rateLimitRetry { tokens := 0, lastRefillTime := 0, refillRate := 1000, maxTokens := 2 } 0).1
        (rateLimitRetry { tokens := 0, lastRefillTime := 0, refillRate := 1000, maxTokens := 2 } 0).2).1
      = false := by
  have h := rateLimit_reject_retry_spec
    { tokens := 0, lastRefillTime := 0, refillRate := 1000, maxTokens := 2 }
    { type := EventType.check, sessionid := some "sid" } false false 0
    (HttpOutcome.ok 200 (RawData.obj emptyPayload) 0)
    (by norm_num) (by norm_num) (by norm_num [hasHitRateLimit, refill])
  exact ⟨h.2.2.1, h.2.1⟩

/-! ## Api client state (src/utils/embedBuilder.ts, class Api) -/

/-- The `App` identity record passed to the `Api` constructor. -/
structure App where
  name : String
  ver : String
  ownerid : String
deriving DecidableEq, Repr

/-- The mutable/constructed state of an `Api` instance that the claims
inspect. The four `*Present` flags model whether `_app`, `_axiosInstance`,
`_rateLimiter` and `_logger` are set (the truthiness the
`_checkInitialization` guards test); the public constructor always sets all
four. -/
structure ApiState where
  appPresent : Bool
  axiosPresent : Bool
  rateLimiterPresent : Bool
  loggerPresent : Bool
  initializedClient : Bool
  limiter : RateLimiter
  convertTimes : Bool
deriving DecidableEq, Repr

/-- The public `Api` constructor: builds the rate limiter from
`options.ratelimit` (default `{maxTokens: 10, refillRate: 5000}`), sets
every component, and starts with `_initializedClient = false`. Returns
`none` when the `RateLimiter` constructor throws. -/
def mkApi (ratelimit : Option (ℚ × ℚ)) (convertTimes : Option Bool) (now : ℚ) :
    Option ApiState :=
  let opts := ratelimit.getD (10, 5000)
  (mkRateLimiter opts.1 opts.2 now).map fun rl =>
    { appPresent := true, axiosPresent := true, rateLimiterPresent := true,
      loggerPresent := true, initializedClient := false, limiter := rl,
      convertTimes := convertTimes.getD false }

/-- The error notification `_checkInitialization` emits when the client has
not completed `init()`. -/
def notInitializedEvent : Event :=
  Event.error EventType.init
    (some "API Initialization Required: Please initialize the API first.")
    ErrorCode.K_NI

/-- `Api._checkInitialization` (lines 1551-1589): throws (`none`) when one
of the four components is missing; otherwise, when the client has not been
initialized it emits the `notInitialized` error notification — and then
returns `true` unconditionally. -/
def checkInitialization (st : ApiState) : Option (Bool × List Event) :=
  if ¬ st.appPresent then none
  else if ¬ st.axiosPresent then none
  else if ¬ st.rateLimiterPresent then none
  else if ¬ st.loggerPresent then none
  else some (true, if st.initializedClient then [] else [notInitializedEvent])

/-- The initialization guard shared by the domain adapter methods
(`Api.login` lines 1696-1710 and its siblings):
`if (!this._checkInitialization()) return Promise.reject(...)`.
The returned Bool is `true` when the adapter proceeds to dispatch the
request, `false` when it rejects. -/
def domainOpInitGuard (st : ApiState) : Option (Bool × List Event) :=
  match checkInitialization st with
  | none => none
  | some (ok, evs) => some (if ok then true else false, evs)

/-- C9 (implicit): `_checkInitialization` always returns `true` for every
client constructed through the public constructor (whatever the later
values of the mutable `initializedClient` flag and limiter), so the "API
Initialization Required" rejection branch in every domain adapter method is
unreachable: invoking a domain operation before `init()` completes emits an
error notification with code `notInitialized`, but the adapter still
proceeds to dispatch the request. -/
theorem checkInitialization_always_true (ratelimit : Option (ℚ × ℚ))
    (convertTimes : Option Bool) (now : ℚ) (st : ApiState)
    (hmk : mkApi ratelimit convertTimes now = some st) :
    (∀ (b : Bool) (rl : RateLimiter),
       checkInitialization { st with initializedClient := b, limiter := rl }
         = some (true, if b then [] else [notInitializedEvent])) ∧
    (∀ (b : Bool) (rl : RateLimiter),
       domainOpInitGuard { st with initializedClient := b, limiter := rl }
         = some (true, if b then [] else [notInitializedEvent])) ∧
    st.initializedClient = false ∧
    domainOpInitGuard st = some (true, [notInitializedEvent]) := by
  simp only [mkApi, Option.map_eq_some'] at hmk
  obtain ⟨rl, -, hst⟩ := hmk
  have happ : st.appPresent = true := by rw [← hst]
  have hax : st.axiosPresent = true := by rw [← hst]
  have hrl : st.rateLimiterPresent = true := by rw [← hst]
  have hlog : st.loggerPresent = true := by rw [← hst]
  have hinit : st.initializedClient = false := by rw [← hst]
  have hchk : ∀ (b : Bool) (rl2 : RateLimiter),
      checkInitialization { st with initializedClient := b, limiter := rl2 }
        = some (true, if b then [] else [notInitializedEvent]) := by
    intro b rl2
    simp [checkInitialization, happ, hax, hrl, hlog]
  have hguard : ∀ (b : Bool) (rl2 : RateLimiter),
      domainOpInitGuard { st with initializedClient := b, limiter := rl2 }
        = some (true, if b then [] else [notInitializedEvent]) := by
    intro b rl2
    simp [domainOpInitGuard, hchk b rl2]
  refine ⟨hchk, hguard, hinit, ?_⟩
  have hfull : ({ st with initializedClient := st.initializedClient, limiter := st.limiter } : ApiState) = st := rfl
  have h := hguard st.initializedClient st.limiter
  rw [hfull] at h
  rw [h, hinit]
  rfl

/-- Witness for C9: the default-constructed client (no options) proceeds to
dispatch while emitting the `notInitialized` error notification. -/
theorem checkInitialization_always_true_witness :
    domainOpInitGuard
        { appPresent := true, axiosPresent := true, rateLimiterPresent := true,
          loggerPresent := true, initializedClient := false,
          limiter := { tokens := 10, lastRefillTime := 0, refillRate := 5000, maxTokens := 10 },
          convertTimes := false }
      = some (true, [notInitializedEvent]) := by
  have h := checkInitialization_always_true none none 0
    { appPresent := true, axiosPresent := true, rateLimiterPresent := true,
      loggerPresent := true, initializedClient := false,
      limiter := { tokens := 10, lastRefillTime := 0, refillRate := 5000, maxTokens := 10 },
      convertTimes := false }
    (by norm_num [mkApi, mkRateLimiter])
  exact h.2.2.2

/-- `{...undefined}` spreads to the empty object: the value `Api.init`
spreads when `_makeRequest` returned `undefined`. -/
def spreadOpt : Option Payload → Payload
  | some p => p
  | none => emptyPayload

/-- Result of one `Api.init` call. -/
structure InitOutput where
  result : Payload
  events : List Event
  state : ApiState
  httpDispatched : Bool
deriving DecidableEq, Repr

/-- `Api.init` (lines 1632-1680): when `_initializedClient` is already set,
returns `{success: true, message: "Already initialized", time: startTime -
Date.now()}` immediately (no limiter use, no HTTP, no events, no state
change); otherwise dispatches an `init` request through `_makeRequest`,
marks the client initialized (unconditionally), emits the `init` event with
the spread response, and returns the spread response. `startTime` is the
`Date.now()` at entry and `now2` the second `Date.now()` of the
already-initialized branch. -/
def alreadyInitializedPayload (t : ℚ) : Payload :=
  { emptyPayload with
      success := some true
      message := some "Already initialized"
      time := some t }

def init (st : ApiState) (fuel : ℕ) (startTime now2 : ℚ) (outcome : HttpOutcome) :
    InitOutput :=
  if st.initializedClient then
    { result := alreadyInitializedPayload (startTime - now2),
      events := [], state := st, httpDispatched := false }
  else
    let mr := makeRequest fuel st.limiter
      { type := EventType.init, sessionid := none } false false startTime outcome
    { result := spreadOpt mr.result,
      events := mr.events ++ [Event.named EventType.init (spreadOpt mr.result)],
      state := { st with initializedClient := true, limiter := mr.limiter },
      httpDispatched := true }

/-- C10 (implicit): `init()` is idempotent after the first successful call:
when `initializedClient` is already set, a further `init()` returns
`{success: true, message: "Already initialized"}` with a non-positive
`time` field, without consulting the rate limiter, dispatching any HTTP
request, or emitting any event, and leaves all client state (including the
limiter) unchanged. -/
theorem init_idempotent (st : ApiState) (fuel : ℕ) (startTime now2 : ℚ)
    (outcome : HttpOutcome)
    (hinit : st.initializedClient = true) (hmono : startTime ≤ now2) :
    (init st fuel startTime now2 outcome).result.success = some true ∧
    (init st fuel startTime now2 outcome).result.message = some "Already initialized" ∧
    (∃ q : ℚ, (init st fuel startTime now2 outcome).result.time = some q ∧ q ≤ 0) ∧
    (init st fuel startTime now2 outcome).events = [] ∧
    (init st fuel startTime now2 outcome).state = st ∧
    (init st fuel startTime now2 outcome).state.limiter = st.limiter ∧
    (init st fuel startTime now2 outcome).httpDispatched = false := by
  have hres : init st fuel startTime now2 outcome
      = { result := alreadyInitializedPayload (startTime - now2),
          events := [], state := st, httpDispatched := false } := by
    simp only [init, hinit, if_true]
  rw [hres]
  exact ⟨rfl, rfl, ⟨startTime - now2, rfl, by linarith⟩, rfl, rfl, rfl, rfl⟩


/-- Witness for C10 on an already-initialized client. -/
theorem init_idempotent_witness :
    (init { appPresent := true, axiosPresent := true, rateLimiterPresent := true,
            loggerPresent := true, initializedClient := true,
            limiter := { tokens := 10, lastRefillTime := 0, refillRate := 5000, maxTokens := 10 },
            convertTimes := false } 2 100 103
        (HttpOutcome.ok 200 (RawData.obj emptyPayload) 0)).result.message
      = some "Already initialized" ∧
    (init { appPresent := true, axiosPresent := true, rateLimiterPresent := true,
            loggerPresent := true, initializedClient := true,
            limiter := { tokens := 10, lastRefillTime := 0, refillRate := 5000, maxTokens := 10 },
            convertTimes := false } 2 100 103
        (HttpOutcome.ok 200 (RawData.obj emptyPayload) 0)).events = [] := by
  have h := init_idempotent
    { appPresent := true, axiosPresent := true, rateLimiterPresent := true,
      loggerPresent := true, initializedClient := true,
      limiter := { tokens := 10, lastRefillTime := 0, refillRate := 5000, maxTokens := 10 },
      convertTimes := false } 2 100 103
    (HttpOutcome.ok 200 (RawData.obj emptyPayload) 0) rfl (by norm_num)
  exact ⟨h.2.1, h.2.2.2.1⟩

end KeyauthClient
